/-
Verification of the bevy-pn-chat chat plugin: a shallow embedding of the
plugin systems (character mapper, keyboard input handler, subscribe client,
and the per-tick async task drain) together with theorems settling the
specified properties against that embedding.

All definitions are translated from the Rust sources under src/: the
relevant files are plugin/keyboard.rs, plugin/tasks.rs, plugin/messages.rs,
plugin/mod.rs and error.rs. External collaborators (the HTTP transport, the
serde JSON deserializer, the Bevy engine scheduler) are modelled as explicit
parameters or as per-tick input sequences; everything the repository itself
computes is embedded as executable Lean functions.
-/

import Mathlib

set_option maxHeartbeats 1000000

namespace BevyPN

/-! ## Key codes

The closed key code enumeration the keyboard handler matches on. It is the
key code enum of the engine version this crate compiles against (the handler
uses the variant names Back, Return, LBracket, RBracket and Grave, which pins
the enumeration below, 163 variants). The serde serialization of a unit
variant is the variant name as a JSON string, which is what the filters in
plugin/keyboard.rs slice into. -/

inductive KeyCode where
  | Key1 | Key2 | Key3 | Key4 | Key5 | Key6 | Key7 | Key8
  | Key9 | Key0 | A | B | C | D | E | F
  | G | H | I | J | K | L | M | N
  | O | P | Q | R | S | T | U | V
  | W | X | Y | Z | Escape | F1 | F2 | F3
  | F4 | F5 | F6 | F7 | F8 | F9 | F10 | F11
  | F12 | F13 | F14 | F15 | F16 | F17 | F18 | F19
  | F20 | F21 | F22 | F23 | F24 | Snapshot | Scroll | Pause
  | Insert | Home | Delete | End | PageDown | PageUp | Left | Up
  | Right | Down | Back | Return | Space | Compose | Caret | Numlock
  | Numpad0 | Numpad1 | Numpad2 | Numpad3 | Numpad4 | Numpad5 | Numpad6 | Numpad7
  | Numpad8 | Numpad9 | NumpadAdd | NumpadDivide | NumpadDecimal | NumpadComma | NumpadEnter | NumpadEquals
  | NumpadMultiply | NumpadSubtract | AbntC1 | AbntC2 | Apostrophe | Apps | Asterisk | At
  | Ax | Backslash | Calculator | Capital | Colon | Comma | Convert | Equals
  | Grave | Kana | Kanji | LAlt | LBracket | LControl | LShift | LWin
  | Mail | MediaSelect | MediaStop | Minus | Mute | MyComputer | NavigateForward | NavigateBackward
  | NextTrack | NoConvert | Oem102 | Period | PlayPause | Plus | Power | PrevTrack
  | RAlt | RBracket | RControl | RShift | RWin | Semicolon | Slash | Sleep
  | Stop | Sysrq | Tab | Underline | Unlabeled | VolumeDown | VolumeUp | Wake
  | WebBack | WebFavorites | WebForward | WebHome | WebRefresh | WebSearch | WebStop | Yen
  | Copy | Paste | Cut
deriving DecidableEq

/-- Name of each key code variant, exactly as the serde serialization of the
Rust enum renders it (the derived Serialize emits the variant name as a JSON
string). -/
def keyCodeName : KeyCode → String
  | KeyCode.Key1 => "Key1"
  | KeyCode.Key2 => "Key2"
  | KeyCode.Key3 => "Key3"
  | KeyCode.Key4 => "Key4"
  | KeyCode.Key5 => "Key5"
  | KeyCode.Key6 => "Key6"
  | KeyCode.Key7 => "Key7"
  | KeyCode.Key8 => "Key8"
  | KeyCode.Key9 => "Key9"
  | KeyCode.Key0 => "Key0"
  | KeyCode.A => "A"
  | KeyCode.B => "B"
  | KeyCode.C => "C"
  | KeyCode.D => "D"
  | KeyCode.E => "E"
  | KeyCode.F => "F"
  | KeyCode.G => "G"
  | KeyCode.H => "H"
  | KeyCode.I => "I"
  | KeyCode.J => "J"
  | KeyCode.K => "K"
  | KeyCode.L => "L"
  | KeyCode.M => "M"
  | KeyCode.N => "N"
  | KeyCode.O => "O"
  | KeyCode.P => "P"
  | KeyCode.Q => "Q"
  | KeyCode.R => "R"
  | KeyCode.S => "S"
  | KeyCode.T => "T"
  | KeyCode.U => "U"
  | KeyCode.V => "V"
  | KeyCode.W => "W"
  | KeyCode.X => "X"
  | KeyCode.Y => "Y"
  | KeyCode.Z => "Z"
  | KeyCode.Escape => "Escape"
  | KeyCode.F1 => "F1"
  | KeyCode.F2 => "F2"
  | KeyCode.F3 => "F3"
  | KeyCode.F4 => "F4"
  | KeyCode.F5 => "F5"
  | KeyCode.F6 => "F6"
  | KeyCode.F7 => "F7"
  | KeyCode.F8 => "F8"
  | KeyCode.F9 => "F9"
  | KeyCode.F10 => "F10"
  | KeyCode.F11 => "F11"
  | KeyCode.F12 => "F12"
  | KeyCode.F13 => "F13"
  | KeyCode.F14 => "F14"
  | KeyCode.F15 => "F15"
  | KeyCode.F16 => "F16"
  | KeyCode.F17 => "F17"
  | KeyCode.F18 => "F18"
  | KeyCode.F19 => "F19"
  | KeyCode.F20 => "F20"
  | KeyCode.F21 => "F21"
  | KeyCode.F22 => "F22"
  | KeyCode.F23 => "F23"
  | KeyCode.F24 => "F24"
  | KeyCode.Snapshot => "Snapshot"
  | KeyCode.Scroll => "Scroll"
  | KeyCode.Pause => "Pause"
  | KeyCode.Insert => "Insert"
  | KeyCode.Home => "Home"
  | KeyCode.Delete => "Delete"
  | KeyCode.End => "End"
  | KeyCode.PageDown => "PageDown"
  | KeyCode.PageUp => "PageUp"
  | KeyCode.Left => "Left"
  | KeyCode.Up => "Up"
  | KeyCode.Right => "Right"
  | KeyCode.Down => "Down"
  | KeyCode.Back => "Back"
  | KeyCode.Return => "Return"
  | KeyCode.Space => "Space"
  | KeyCode.Compose => "Compose"
  | KeyCode.Caret => "Caret"
  | KeyCode.Numlock => "Numlock"
  | KeyCode.Numpad0 => "Numpad0"
  | KeyCode.Numpad1 => "Numpad1"
  | KeyCode.Numpad2 => "Numpad2"
  | KeyCode.Numpad3 => "Numpad3"
  | KeyCode.Numpad4 => "Numpad4"
  | KeyCode.Numpad5 => "Numpad5"
  | KeyCode.Numpad6 => "Numpad6"
  | KeyCode.Numpad7 => "Numpad7"
  | KeyCode.Numpad8 => "Numpad8"
  | KeyCode.Numpad9 => "Numpad9"
  | KeyCode.NumpadAdd => "NumpadAdd"
  | KeyCode.NumpadDivide => "NumpadDivide"
  | KeyCode.NumpadDecimal => "NumpadDecimal"
  | KeyCode.NumpadComma => "NumpadComma"
  | KeyCode.NumpadEnter => "NumpadEnter"
  | KeyCode.NumpadEquals => "NumpadEquals"
  | KeyCode.NumpadMultiply => "NumpadMultiply"
  | KeyCode.NumpadSubtract => "NumpadSubtract"
  | KeyCode.AbntC1 => "AbntC1"
  | KeyCode.AbntC2 => "AbntC2"
  | KeyCode.Apostrophe => "Apostrophe"
  | KeyCode.Apps => "Apps"
  | KeyCode.Asterisk => "Asterisk"
  | KeyCode.At => "At"
  | KeyCode.Ax => "Ax"
  | KeyCode.Backslash => "Backslash"
  | KeyCode.Calculator => "Calculator"
  | KeyCode.Capital => "Capital"
  | KeyCode.Colon => "Colon"
  | KeyCode.Comma => "Comma"
  | KeyCode.Convert => "Convert"
  | KeyCode.Equals => "Equals"
  | KeyCode.Grave => "Grave"
  | KeyCode.Kana => "Kana"
  | KeyCode.Kanji => "Kanji"
  | KeyCode.LAlt => "LAlt"
  | KeyCode.LBracket => "LBracket"
  | KeyCode.LControl => "LControl"
  | KeyCode.LShift => "LShift"
  | KeyCode.LWin => "LWin"
  | KeyCode.Mail => "Mail"
  | KeyCode.MediaSelect => "MediaSelect"
  | KeyCode.MediaStop => "MediaStop"
  | KeyCode.Minus => "Minus"
  | KeyCode.Mute => "Mute"
  | KeyCode.MyComputer => "MyComputer"
  | KeyCode.NavigateForward => "NavigateForward"
  | KeyCode.NavigateBackward => "NavigateBackward"
  | KeyCode.NextTrack => "NextTrack"
  | KeyCode.NoConvert => "NoConvert"
  | KeyCode.Oem102 => "Oem102"
  | KeyCode.Period => "Period"
  | KeyCode.PlayPause => "PlayPause"
  | KeyCode.Plus => "Plus"
  | KeyCode.Power => "Power"
  | KeyCode.PrevTrack => "PrevTrack"
  | KeyCode.RAlt => "RAlt"
  | KeyCode.RBracket => "RBracket"
  | KeyCode.RControl => "RControl"
  | KeyCode.RShift => "RShift"
  | KeyCode.RWin => "RWin"
  | KeyCode.Semicolon => "Semicolon"
  | KeyCode.Slash => "Slash"
  | KeyCode.Sleep => "Sleep"
  | KeyCode.Stop => "Stop"
  | KeyCode.Sysrq => "Sysrq"
  | KeyCode.Tab => "Tab"
  | KeyCode.Underline => "Underline"
  | KeyCode.Unlabeled => "Unlabeled"
  | KeyCode.VolumeDown => "VolumeDown"
  | KeyCode.VolumeUp => "VolumeUp"
  | KeyCode.Wake => "Wake"
  | KeyCode.WebBack => "WebBack"
  | KeyCode.WebFavorites => "WebFavorites"
  | KeyCode.WebForward => "WebForward"
  | KeyCode.WebHome => "WebHome"
  | KeyCode.WebRefresh => "WebRefresh"
  | KeyCode.WebSearch => "WebSearch"
  | KeyCode.WebStop => "WebStop"
  | KeyCode.Yen => "Yen"
  | KeyCode.Copy => "Copy"
  | KeyCode.Paste => "Paste"
  | KeyCode.Cut => "Cut"

/-- Double quote character: serde wraps the serialized variant name in quotes. -/
def dq : Char := Char.ofNat 34

/-- Result of serde_json.to_string on a key code, as the character list the
Rust byte string holds (every name is ASCII, so byte positions and character
positions coincide). -/
def serializedKeyCode (k : KeyCode) : List Char :=
  dq :: (keyCodeName k).toList ++ [dq]

/-- Constant SERIALIZED_LETTERS_POSITION from plugin/keyboard.rs. -/
def SERIALIZED_LETTERS_POSITION : Nat := 3

/-- Constant SERIALIZED_DIGITS_POSITION from plugin/keyboard.rs. -/
def SERIALIZED_DIGITS_POSITION : Nat := 4

/-- Constant SERIALIZED_NUMPAD_POSITION from plugin/keyboard.rs. -/
def SERIALIZED_NUMPAD_POSITION : Nat := 7

/-- Function special_characters_filter from plugin/keyboard.rs: the fixed
table of twelve punctuation and whitespace keys. -/
def special_characters_filter (key_code : KeyCode) : Option Char :=
  match key_code with
  | KeyCode.Space => some ' '
  | KeyCode.Comma => some ','
  | KeyCode.Period => some '.'
  | KeyCode.Slash => some '/'
  | KeyCode.Semicolon => some ';'
  | KeyCode.Apostrophe => some (Char.ofNat 39)
  | KeyCode.Backslash => some (Char.ofNat 92)
  | KeyCode.LBracket => some '['
  | KeyCode.RBracket => some ']'
  | KeyCode.Grave => some (Char.ofNat 96)
  | KeyCode.Minus => some '-'
  | KeyCode.Equals => some '='
  | _ => none

/-- Function letter_filter from plugin/keyboard.rs: a serialized name of
length three (quote, letter, quote) yields its character at index one. -/
def letter_filter (serialized : List Char) : Option Char :=
  if serialized.length = SERIALIZED_LETTERS_POSITION then serialized.get? 1
  else none

/-- Function digits_filter from plugin/keyboard.rs: a serialized name that
starts with quote-Key yields index four, otherwise one that starts with
quote-Numpad yields index seven. -/
def digits_filter (serialized : List Char) : Option Char :=
  (if (dq :: "Key".toList).isPrefixOf serialized then
      serialized.get? SERIALIZED_DIGITS_POSITION
    else none).orElse
    (fun _ =>
      if (dq :: "Numpad".toList).isPrefixOf serialized then
        serialized.get? SERIALIZED_NUMPAD_POSITION
      else none)

/-- Function characters_filter from plugin/keyboard.rs: special table first,
then the letter filter, then the digits filter, on the serde serialization of
the key code (which always succeeds). -/
def characters_filter (key_code : KeyCode) : Option Char :=
  (special_characters_filter key_code).orElse
    (fun _ =>
      (letter_filter (serializedKeyCode key_code)).orElse
        (fun _ => digits_filter (serializedKeyCode key_code)))


/-! ## Claim-side enumerations for the character mapper -/

/-- The set of key codes for which the mapper actually yields a character,
read off the Rust filters: the special table, A to Z, the digit row, the
numeric keypad digits, and every other Numpad-prefixed key (whose serialized
name also passes the Numpad branch of digits_filter). -/
def mapsToChar : KeyCode → Bool
  | KeyCode.A | KeyCode.B | KeyCode.C | KeyCode.D | KeyCode.E | KeyCode.F
  | KeyCode.G | KeyCode.H | KeyCode.I | KeyCode.J | KeyCode.K | KeyCode.L
  | KeyCode.M | KeyCode.N | KeyCode.O | KeyCode.P | KeyCode.Q | KeyCode.R
  | KeyCode.S | KeyCode.T | KeyCode.U | KeyCode.V | KeyCode.W | KeyCode.X
  | KeyCode.Y | KeyCode.Z | KeyCode.Key0 | KeyCode.Key1 | KeyCode.Key2 | KeyCode.Key3
  | KeyCode.Key4 | KeyCode.Key5 | KeyCode.Key6 | KeyCode.Key7 | KeyCode.Key8 | KeyCode.Key9
  | KeyCode.Numpad0 | KeyCode.Numpad1 | KeyCode.Numpad2 | KeyCode.Numpad3 | KeyCode.Numpad4 | KeyCode.Numpad5
  | KeyCode.Numpad6 | KeyCode.Numpad7 | KeyCode.Numpad8 | KeyCode.Numpad9 | KeyCode.Space | KeyCode.Comma
  | KeyCode.Period | KeyCode.Slash | KeyCode.Semicolon | KeyCode.Apostrophe | KeyCode.Backslash | KeyCode.LBracket
  | KeyCode.RBracket | KeyCode.Grave | KeyCode.Minus | KeyCode.Equals | KeyCode.NumpadAdd | KeyCode.NumpadComma
  | KeyCode.NumpadDecimal | KeyCode.NumpadDivide | KeyCode.NumpadEnter | KeyCode.NumpadEquals | KeyCode.NumpadMultiply | KeyCode.NumpadSubtract => true
  | _ => false

/-- Special character table as the claim enumerates it, one pair per key. -/
def special_table : List (KeyCode × Char) :=
  [(KeyCode.Space, ' '), (KeyCode.Comma, ','), (KeyCode.Period, '.'),
   (KeyCode.Slash, '/'), (KeyCode.Semicolon, ';'),
   (KeyCode.Apostrophe, Char.ofNat 39), (KeyCode.Backslash, Char.ofNat 92),
   (KeyCode.LBracket, '['), (KeyCode.RBracket, ']'),
   (KeyCode.Grave, Char.ofNat 96), (KeyCode.Minus, '-'), (KeyCode.Equals, '=')]

/-- Alphabetic keys with the letter the claim expects, uniformly uppercase. -/
def letter_table : List (KeyCode × Char) :=
  [(KeyCode.A, 'A'), (KeyCode.B, 'B'), (KeyCode.C, 'C'), (KeyCode.D, 'D'), (KeyCode.E, 'E'), (KeyCode.F, 'F'), (KeyCode.G, 'G'), (KeyCode.H, 'H'), (KeyCode.I, 'I'), (KeyCode.J, 'J'), (KeyCode.K, 'K'), (KeyCode.L, 'L'), (KeyCode.M, 'M'), (KeyCode.N, 'N'), (KeyCode.O, 'O'), (KeyCode.P, 'P'), (KeyCode.Q, 'Q'), (KeyCode.R, 'R'), (KeyCode.S, 'S'), (KeyCode.T, 'T'), (KeyCode.U, 'U'), (KeyCode.V, 'V'), (KeyCode.W, 'W'), (KeyCode.X, 'X'), (KeyCode.Y, 'Y'), (KeyCode.Z, 'Z')]

/-- Numeric row keys with their digit characters. -/
def digit_row_table : List (KeyCode × Char) :=
  [(KeyCode.Key0, '0'), (KeyCode.Key1, '1'), (KeyCode.Key2, '2'), (KeyCode.Key3, '3'), (KeyCode.Key4, '4'), (KeyCode.Key5, '5'), (KeyCode.Key6, '6'), (KeyCode.Key7, '7'), (KeyCode.Key8, '8'), (KeyCode.Key9, '9')]

/-- Numeric keypad digit keys with their digit characters. -/
def numpad_digit_table : List (KeyCode × Char) :=
  [(KeyCode.Numpad0, '0'), (KeyCode.Numpad1, '1'), (KeyCode.Numpad2, '2'), (KeyCode.Numpad3, '3'), (KeyCode.Numpad4, '4'), (KeyCode.Numpad5, '5'), (KeyCode.Numpad6, '6'), (KeyCode.Numpad7, '7'), (KeyCode.Numpad8, '8'), (KeyCode.Numpad9, '9')]


/-! ## Keyboard input handler

State touched by keyboard_handler in plugin/keyboard.rs. The single input
entity carries an InputBox component (cursor and selection, from
plugin/text.rs) and a Text component whose first section value is the entry
text; the Rust String is embedded as its character list. A spawned
PublishTask is recorded as the payload and channel the handler hands to the
publish call. -/

/-- Key press state of a keyboard event. -/
inductive ButtonState where
  | pressed
  | released
deriving DecidableEq

/-- One raw keyboard event: its press state and its optional key code. -/
structure KeyboardInput where
  state : ButtonState
  key_code : Option KeyCode
deriving DecidableEq

/-- Record of one spawned PublishTask: the snapshotted message text and the
channel resource value the publish call receives. -/
structure PublishRecord where
  payload : List Char
  channel : String
deriving DecidableEq

/-- The per-entity state keyboard_handler mutates, plus the list of publish
tasks it has spawned, in spawn order. -/
structure KbState where
  text : List Char
  cursor : Nat
  selection : Option Nat
  publishTasks : List PublishRecord
deriving DecidableEq

/-- One arm of the match inside keyboard_handler: Return snapshots the text,
clears it, resets cursor and selection and spawns a PublishTask with the
snapshot; Back pops the last character of the text; any other key runs
characters_filter and pushes the resulting character, if any, onto the end of
the text. -/
def keyboard_key_step (channel : String) (s : KbState) (key : KeyCode) : KbState :=
  match key with
  | KeyCode.Return =>
      { text := [], cursor := 0, selection := none,
        publishTasks := s.publishTasks ++ [{ payload := s.text, channel := channel }] }
  | KeyCode.Back =>
      { s with text := s.text.dropLast }
  | k =>
      match characters_filter k with
      | some c => { s with text := s.text ++ [c] }
      | none => s

/-- Function keyboard_handler from plugin/keyboard.rs for one tick: the
pending events are filtered to pressed ones, their key codes extracted, and
each applied in order. -/
def keyboard_handler (channel : String) (events : List KeyboardInput)
    (s : KbState) : KbState :=
  ((events.filter (fun e => e.state == ButtonState.pressed)).filterMap
      (fun e => e.key_code)).foldl (keyboard_key_step channel) s

/-! ## Errors and the subscribe client

Enum BevyPNError from error.rs; the payloads of the external error types
(the transport error and the serde error) are embedded as strings. -/

/-- Enum BevyPNError from error.rs. -/
inductive BevyPNError where
  | Config (message : String)
  | PubNub (inner : String)
  | EmptyBody (on_ : String)
  | Deserialize (inner : String)
deriving DecidableEq

/-- One chat message of a subscribe response body, struct Message from
plugin/messages.rs (serde fields c and d) together with the sender id the
message formatting in plugin/tasks.rs reads. -/
structure Message where
  channel : String
  user_id : String
  payload : String
deriving DecidableEq

/-- Struct SubscriptionInfo from plugin/messages.rs: the continuation
timetoken (string) and region (signed integer) of one response. -/
structure SubscriptionInfo where
  tt : String
  tr : Int
deriving DecidableEq

/-- Struct SubscriptionResult from plugin/messages.rs: the cursor of the
response and its ordered message list. -/
structure SubscriptionResult where
  message_info : SubscriptionInfo
  messages : List Message
deriving DecidableEq

/-- Transport failure of the external client library, payload abstracted. -/
structure PubNubTransportError where
  message : String
deriving DecidableEq

/-- The part of the transport response the subscribe function reads: the
optional body, as the byte list of the Rust byte vector. -/
structure TransportResponse where
  status : Nat
  body : Option (List UInt8)
deriving DecidableEq

/-- The request subscribe builds: its path and query parameters. -/
structure TransportRequest where
  path : String
  query_parameters : List (String × String)
deriving DecidableEq

/-- Request construction inside subscribe in plugin/messages.rs. -/
def subscribe_request (subscribe_key channel tt tr user_id : String) :
    TransportRequest :=
  { path := "v2/subscribe/" ++ subscribe_key ++ "/" ++ channel ++ "/0",
    query_parameters := [("tt", tt), ("tr", tr), ("uuid", user_id)] }

/-- Function subscribe from plugin/messages.rs. The blocking transport send
and the serde deserializer are external collaborators, passed in as
functions; everything else mirrors the Rust error chain: a transport error
maps into the PubNub variant, a missing body into EmptyBody on Subscribe, a
failed parse into Deserialize, and a parsed body is returned as is. -/
def subscribe
    (send : TransportRequest → Except PubNubTransportError TransportResponse)
    (deserialize : List UInt8 → Except String SubscriptionResult)
    (subscribe_key channel tt tr user_id : String) :
    Except BevyPNError SubscriptionResult :=
  match send (subscribe_request subscribe_key channel tt tr user_id) with
  | Except.error e => Except.error (BevyPNError.PubNub e.message)
  | Except.ok response =>
      match response.body with
      | none => Except.error (BevyPNError.EmptyBody "Subscribe")
      | some body =>
          match deserialize body with
          | Except.error e => Except.error (BevyPNError.Deserialize e)
          | Except.ok r => Except.ok r


/-! ## Subscription loop

The subscribe half of tasks_handler in plugin/tasks.rs, together with
message_handler in plugin/messages.rs and the resource initialisation in
ChatPlugin build (plugin/mod.rs). An outstanding SubscribeTask is identified
by the cursor pair its subscribe call was spawned with; the rendering sink is
the list of chat messages spawned so far, in spawn order; the diagnostics
sink is the list of errors handed to the error log. Whether a polled future
is finished this tick, and with what result, is decided by the worker
threads, so the tick takes it as an input function from the position of the
task to its completion status. -/

/-- Cursor of an outstanding subscribe call: the tt and tr strings handed to
subscribe as query parameter values. -/
structure Cursor where
  tt : String
  tr : String
deriving DecidableEq

/-- Loop state: outstanding subscribe tasks (their cursors), the rendering
sink and the diagnostics sink. -/
structure SubWorld where
  outstanding : List Cursor
  sink : List Message
  diagnostics : List BevyPNError
deriving DecidableEq

/-- Cursor of the SubscribeTask the success branch of tasks_handler spawns:
tt of the result and its region rendered with to_string. -/
def next_cursor (r : SubscriptionResult) : Cursor :=
  { tt := r.message_info.tt, tr := toString r.message_info.tr }

/-- The for_each over the subscribe task query in tasks_handler, one entity
at a time: a pending task stays; a task completed with an error is logged and
despawned; a task completed with a result is despawned after spawning the
next SubscribeTask with the result cursor and spawning one chat message per
received message, in received order. Returns the surviving and newly spawned
tasks, the newly spawned chat messages and the newly logged errors. -/
def subscribe_drain
    (status : Nat → Option (Except BevyPNError SubscriptionResult)) :
    Nat → List Cursor → List Cursor × List Message × List BevyPNError
  | _, [] => ([], [], [])
  | i, c :: rest =>
      let tail := subscribe_drain status (i + 1) rest
      match status i with
      | none => (c :: tail.1, tail.2.1, tail.2.2)
      | some (Except.error e) => (tail.1, tail.2.1, e :: tail.2.2)
      | some (Except.ok r) =>
          (next_cursor r :: tail.1, r.messages ++ tail.2.1, tail.2.2)

/-- One tick of the subscribe half of tasks_handler: drain the outstanding
tasks with the completion statuses the workers report this tick, append the
spawned chat messages to the sink and the logged errors to diagnostics. -/
def tasks_handler_subscribe (w : SubWorld)
    (status : Nat → Option (Except BevyPNError SubscriptionResult)) : SubWorld :=
  let d := subscribe_drain status 0 w.outstanding
  { outstanding := d.1, sink := w.sink ++ d.2.1, diagnostics := w.diagnostics ++ d.2.2 }

/-- Struct PubNubSubscribeResource from plugin/resources.rs. -/
structure PubNubSubscribeResource where
  tt : String
  tr : String
  subscribe_key : String
  channel : String
  user_id : String
deriving DecidableEq

/-- The resource value ChatPlugin build inserts in plugin/mod.rs: tt and tr
start at the sentinel string zero. -/
def initial_subscribe_resource (subscribe_key channel user_id : String) :
    PubNubSubscribeResource :=
  { tt := "0", tr := "0", subscribe_key := subscribe_key, channel := channel,
    user_id := user_id }

/-- Function message_handler from plugin/messages.rs, a startup system: it
spawns one SubscribeTask whose subscribe call receives the tt and tr of the
resource. -/
def message_handler (res : PubNubSubscribeResource) (w : SubWorld) : SubWorld :=
  { w with outstanding := w.outstanding ++ [{ tt := res.tt, tr := res.tr }] }

/-- The loop state right after startup: no entities, then message_handler
run once on the freshly inserted resource. -/
def startup_world (subscribe_key channel user_id : String) : SubWorld :=
  message_handler (initial_subscribe_resource subscribe_key channel user_id)
    { outstanding := [], sink := [], diagnostics := [] }

/-! ## Task registry

The poll and despawn discipline of tasks_handler in plugin/tasks.rs,
abstracted over both task kinds: every registered task is checked with a
non-blocking poll; a finished one yields its result and is despawned the
same tick; an unfinished one stays registered untouched. A task is
represented by its entity id, its kind, the tick its worker finishes, and
the result it then carries. -/

/-- Kind of a registered task: the two disjoint component types of
plugin/tasks.rs. -/
inductive TaskKind where
  | publishTask
  | subscribeTask
deriving DecidableEq

deriving instance DecidableEq for Except

/-- Result a finished task carries: unit for a publish, a subscription
result for a subscribe, each inside the crate error type. -/
inductive TaskOutcome where
  | published (r : Except BevyPNError Unit)
  | subscribed (r : Except BevyPNError SubscriptionResult)
deriving DecidableEq

/-- One registered in-flight task. -/
structure RegTask where
  id : Nat
  kind : TaskKind
  readyAt : Nat
  outcome : TaskOutcome
deriving DecidableEq

/-- What draining a finished task yields: its entity id, kind and result. -/
def yieldOf (t : RegTask) : Nat × TaskKind × TaskOutcome :=
  (t.id, t.kind, t.outcome)

/-- One tick of the poll and despawn loops of tasks_handler over the whole
registry: poll_once returns a value exactly when the worker has finished
(readyAt is at most the current tick); a finished task is yielded and
despawned, an unfinished one stays. Returns the surviving registry and the
yielded results, in registry order. -/
def drain_completed (tick : Nat) :
    List RegTask → List RegTask × List (Nat × TaskKind × TaskOutcome)
  | [] => ([], [])
  | t :: rest =>
      let tail := drain_completed tick rest
      if t.readyAt ≤ tick then (tail.1, yieldOf t :: tail.2)
      else (t :: tail.1, tail.2)

/-- Run the registry for the given number of ticks, draining once per tick
(tick numbers zero up to the bound, exclusive), and collect every yielded
result in observation order. -/
def run_registry (reg : List RegTask) : Nat → List RegTask × List (Nat × TaskKind × TaskOutcome)
  | 0 => (reg, [])
  | T + 1 =>
      let prev := run_registry reg T
      let d := drain_completed T prev.1
      (d.1, prev.2 ++ d.2)

/-- How often a given entity id occurs among yielded results. -/
def countYield (i : Nat) (ys : List (Nat × TaskKind × TaskOutcome)) : Nat :=
  ys.countP (fun y => y.1 == i)


/-! ## Concrete inputs used by counterexamples and witnesses -/

/-- A pressed Return key event. -/
def return_press : KeyboardInput :=
  { state := ButtonState.pressed, key_code := some KeyCode.Return }

/-- A pressed Back key event. -/
def back_press : KeyboardInput :=
  { state := ButtonState.pressed, key_code := some KeyCode.Back }

/-- The loop state with exactly the startup subscribe task outstanding. -/
def c1_before : SubWorld :=
  { outstanding := [{ tt := "0", tr := "0" }], sink := [], diagnostics := [] }

/-- The tick on c1_before in which the outstanding subscribe task completes
with an EmptyBody error. -/
def c1_after : SubWorld :=
  tasks_handler_subscribe c1_before
    (fun _ => some (Except.error (BevyPNError.EmptyBody "Subscribe")))

/-- A concrete registered task used to instantiate the registry theorem. -/
def wtask : RegTask :=
  { id := 2, kind := TaskKind.subscribeTask, readyAt := 0,
    outcome := TaskOutcome.subscribed (Except.error (BevyPNError.EmptyBody "Subscribe")) }

/-- A concrete three-task registry with out-of-order completion ticks. -/
def wreg : List RegTask :=
  [{ id := 1, kind := TaskKind.publishTask, readyAt := 2,
     outcome := TaskOutcome.published (Except.ok ()) },
   wtask,
   { id := 3, kind := TaskKind.publishTask, readyAt := 5,
     outcome := TaskOutcome.published (Except.ok ()) }]

/-! ## Helper lemmas -/

/-- Draining never grows the set of outstanding subscribe tasks: each entity
contributes at most one task (itself when pending, its successor on success,
nothing on failure). -/
theorem subscribe_drain_length_le
    (status : Nat → Option (Except BevyPNError SubscriptionResult)) :
    ∀ (i : Nat) (l : List Cursor), (subscribe_drain status i l).1.length ≤ l.length := by
  intro i l
  induction l generalizing i with
  | nil => simp [subscribe_drain]
  | cons c rest ih =>
      rw [subscribe_drain]
      cases status i with
      | none => simpa using Nat.succ_le_succ (ih (i + 1))
      | some res =>
          cases res with
          | error e => simpa using Nat.le_succ_of_le (ih (i + 1))
          | ok r => simpa using Nat.succ_le_succ (ih (i + 1))

/-! ## The claims -/

/-- Claim C1, counterexample. On c1_before, whose single outstanding
subscribe task completes with an EmptyBody error, the error is logged, but
the drained tick leaves no outstanding subscribe task at all: contrary to
the claim, no new SubscribeTask is enqueued with the last-known-good cursor. -/
theorem claim_C1_counterexample :
    c1_after.diagnostics = [BevyPNError.EmptyBody "Subscribe"] ∧
    c1_after.outstanding = [] ∧
    c1_after.outstanding ≠ [{ tt := "0", tr := "0" }] := by decide

/-- Claim C1, amended: when the drain observes a completed subscribe task
whose result is an error, the error is reported to the diagnostics sink and
the completed task is despawned, but no new SubscribeTask is enqueued; the
cursor state is left untouched (the loop simply stops polling). -/
theorem claim_C1 :
    ∀ (c : Cursor) (sink : List Message) (diag : List BevyPNError) (e : BevyPNError),
    tasks_handler_subscribe { outstanding := [c], sink := sink, diagnostics := diag }
        (fun _ => some (Except.error e))
      = { outstanding := [], sink := sink, diagnostics := diag ++ [e] } := by
  intro c sink diag e
  simp [tasks_handler_subscribe, subscribe_drain]

/-- Claim C2, counterexample. With the input buffer empty, pressing Return
does enqueue a PublishTask (with an empty payload): the handler performs no
emptiness check, contrary to the claimed no-op. -/
theorem claim_C2_counterexample :
    (keyboard_handler "room1" [return_press]
        { text := [], cursor := 0, selection := none, publishTasks := [] }).publishTasks
      = [{ payload := [], channel := "room1" }] ∧
    (keyboard_handler "room1" [return_press]
        { text := [], cursor := 0, selection := none, publishTasks := [] }).publishTasks
      ≠ [] := by decide

/-- Claim C2, amended: pressing Return with an empty input text resets the
buffer (empty text, cursor zero, selection cleared) and enqueues exactly one
PublishTask whose payload is the empty string. -/
theorem claim_C2 :
    ∀ (channel : String) (cursor : Nat) (selection : Option Nat)
      (tasks : List PublishRecord),
    keyboard_handler channel [return_press]
        { text := [], cursor := cursor, selection := selection, publishTasks := tasks }
      = { text := [], cursor := 0, selection := none,
          publishTasks := tasks ++ [{ payload := [], channel := channel }] } := by
  intro channel cursor selection tasks
  rfl

/-- Claim C3, counterexample. NumpadAdd is none of: a letter key, a digit
key, a keypad digit key, a special-table key; the claim says the mapper
returns no character for it, but the serialized-name slicing maps it to the
letter A (and NumpadEnter to E). -/
theorem claim_C3_counterexample :
    characters_filter KeyCode.NumpadAdd = some 'A' ∧
    characters_filter KeyCode.NumpadEnter = some 'E' ∧
    characters_filter KeyCode.NumpadAdd ≠ none := by decide

/-- Claim C3, amended: the mapper returns a character exactly for the keys
of mapsToChar: the letters, the two digit families, the twelve special keys,
and additionally every other Numpad-prefixed key (NumpadAdd, NumpadComma,
NumpadDecimal, NumpadDivide, NumpadEnter, NumpadEquals, NumpadMultiply,
NumpadSubtract), whose serialized names also pass the Numpad branch of
digits_filter; every remaining key code, in particular every function key,
arrow key and modifier, maps to none. -/
theorem claim_C3 : ∀ (k : KeyCode), (characters_filter k).isSome = mapsToChar k := by
  intro k
  cases k <;> rfl

/-- Claim C4: when the drain observes a completed subscribe task carrying a
successful SubscriptionResult, the continuation cursor is replaced by the
cursor of the result (its tt, and its region rendered to a string), every
received message is forwarded to the rendering sink appended in received
order with nothing reordered, dropped or deduplicated, and exactly one new
SubscribeTask is enqueued in the same tick with the updated cursor. -/
theorem claim_C4 :
    ∀ (c : Cursor) (sink : List Message) (diag : List BevyPNError)
      (r : SubscriptionResult),
    tasks_handler_subscribe { outstanding := [c], sink := sink, diagnostics := diag }
        (fun _ => some (Except.ok r))
      = { outstanding := [next_cursor r], sink := sink ++ r.messages,
          diagnostics := diag } := by
  intro c sink diag r
  simp [tasks_handler_subscribe, subscribe_drain]

/-- Claim C6: pressing Return while the input text is non-empty snapshots
the text, clears the buffer (empty text, cursor zero, selection cleared) and
enqueues exactly one PublishTask whose payload is the snapshot. -/
theorem claim_C6 :
    ∀ (channel : String) (c : Char) (cs : List Char) (cursor : Nat)
      (selection : Option Nat) (tasks : List PublishRecord),
    keyboard_handler channel [return_press]
        { text := c :: cs, cursor := cursor, selection := selection, publishTasks := tasks }
      = { text := [], cursor := 0, selection := none,
          publishTasks := tasks ++ [{ payload := c :: cs, channel := channel }] } := by
  intro channel c cs cursor selection tasks
  rfl

/-- Claim C9, counterexample. With text a and cursor position zero the claim
demands a no-op; the handler instead pops the last character, leaving the
empty text. -/
theorem claim_C9_counterexample :
    (keyboard_handler "room1" [back_press]
        { text := ['a'], cursor := 0, selection := none, publishTasks := [] }).text = [] ∧
    ([] : List Char) ≠ ['a'] := by decide

/-- Claim C9, amended: a pressed Back key removes the last character of the
text when there is one, independently of cursor_position, and leaves
cursor_position, the selection and the task list unchanged; it is a no-op
only when the text is already empty. -/
theorem claim_C9 :
    ∀ (channel : String) (s : KbState),
    keyboard_handler channel [back_press] s
      = { text := s.text.dropLast, cursor := s.cursor, selection := s.selection,
          publishTasks := s.publishTasks } := by
  intro channel s
  rfl

/-- Claim C10: every key of the special table maps to its literal character,
every alphabetic key maps to its letter uniformly uppercase, and every
numeric row key and numeric keypad digit key maps to its digit character. -/
theorem claim_C10 :
    ((special_table ++ letter_table ++ digit_row_table ++ numpad_digit_table).all
        (fun p => characters_filter p.1 == some p.2)) = true := by decide


/-- Claim C8: at startup exactly one SubscribeTask is enqueued, with the
sentinel cursor of tt zero and tr zero (the resource values ChatPlugin build
inserts), and over any schedule of subsequent ticks at most one subscribe
task is ever outstanding: a new one appears only in the tick a completed one
is observed and despawned, because only the success branch of the drain
spawns one. -/
theorem claim_C8 :
    ∀ (subscribe_key channel user_id : String)
      (schedule : List (Nat → Option (Except BevyPNError SubscriptionResult))),
    (startup_world subscribe_key channel user_id).outstanding = [{ tt := "0", tr := "0" }] ∧
    (schedule.foldl tasks_handler_subscribe
        (startup_world subscribe_key channel user_id)).outstanding.length ≤ 1 := by
  intro subscribe_key channel user_id schedule
  refine ⟨rfl, ?_⟩
  have key : ∀ (sch : List (Nat → Option (Except BevyPNError SubscriptionResult)))
      (w : SubWorld), w.outstanding.length ≤ 1 →
      (sch.foldl tasks_handler_subscribe w).outstanding.length ≤ 1 := by
    intro sch
    induction sch with
    | nil => intro w h; simpa using h
    | cons st rest ih =>
        intro w h
        apply ih
        exact Nat.le_trans (subscribe_drain_length_le st 0 w.outstanding) h
  exact key schedule _ (by rfl)

/-- Claim C7: over every transport outcome and every deserializer, the
subscribe operation returns the EmptyBody error exactly when the transport
response arrives without a body, a Deserialize error exactly when a body is
present but fails to parse, maps a transport failure to the PubNub variant,
returns the parsed result exactly when a body parses, and never produces the
remaining (Config) error kind. -/
theorem claim_C7 :
    ∀ (send : TransportRequest → Except PubNubTransportError TransportResponse)
      (deserialize : List UInt8 → Except String SubscriptionResult)
      (sk ch tt tr uid : String),
    ((subscribe send deserialize sk ch tt tr uid
        = Except.error (BevyPNError.EmptyBody "Subscribe")) ↔
      (∃ resp, send (subscribe_request sk ch tt tr uid) = Except.ok resp ∧
        resp.body = none)) ∧
    ((∃ e, subscribe send deserialize sk ch tt tr uid
        = Except.error (BevyPNError.Deserialize e)) ↔
      (∃ resp b e, send (subscribe_request sk ch tt tr uid) = Except.ok resp ∧
        resp.body = some b ∧ deserialize b = Except.error e)) ∧
    ((∃ m, subscribe send deserialize sk ch tt tr uid
        = Except.error (BevyPNError.PubNub m)) ↔
      (∃ e, send (subscribe_request sk ch tt tr uid) = Except.error e)) ∧
    ((∃ r, subscribe send deserialize sk ch tt tr uid = Except.ok r) ↔
      (∃ resp b r, send (subscribe_request sk ch tt tr uid) = Except.ok resp ∧
        resp.body = some b ∧ deserialize b = Except.ok r)) ∧
    (∀ m, subscribe send deserialize sk ch tt tr uid
        ≠ Except.error (BevyPNError.Config m)) := by
  intro send deserialize sk ch tt tr uid
  rcases h : send (subscribe_request sk ch tt tr uid) with e | resp
  · simp [subscribe, h]
  · rcases hb : resp.body with _ | body
    · simp [subscribe, h, hb]
    · rcases hd : deserialize body with e | r
      · simp [subscribe, h, hb, hd]
      · simp [subscribe, h, hb, hd]

/-- Tasks surviving one drain are exactly those whose worker has not yet
finished, in registry order and unchanged. -/
theorem drain_fst_eq (tick : Nat) (l : List RegTask) :
    (drain_completed tick l).1 = l.filter (fun t => decide (tick < t.readyAt)) := by
  induction l with
  | nil => rfl
  | cons t rest ih =>
      rw [drain_completed, List.filter_cons]
      by_cases h : t.readyAt ≤ tick
      · have hd : decide (tick < t.readyAt) = false := by
          simp only [decide_eq_false_iff_not]
          omega
        simp [h, hd, ih]
      · have hd : decide (tick < t.readyAt) = true := by
          simp only [decide_eq_true_eq]
          omega
        simp [h, hd, ih]

/-- One drain yields exactly the finished tasks, in registry order. -/
theorem drain_snd_eq (tick : Nat) (l : List RegTask) :
    (drain_completed tick l).2
      = (l.filter (fun t => decide (t.readyAt ≤ tick))).map yieldOf := by
  induction l with
  | nil => rfl
  | cons t rest ih =>
      rw [drain_completed, List.filter_cons]
      by_cases h : t.readyAt ≤ tick
      · simp [h, ih]
      · simp [h, ih]

/-- After running the registry for T ticks, the surviving tasks are exactly
those whose workers finish at tick T or later, unchanged. -/
theorem run_fst_eq (reg : List RegTask) (T : Nat) :
    (run_registry reg T).1 = reg.filter (fun t => decide (T ≤ t.readyAt)) := by
  induction T with
  | zero =>
      rw [run_registry]
      symm
      rw [List.filter_eq_self]
      intro a _
      simp
  | succ T ih =>
      rw [run_registry]
      simp only
      rw [drain_fst_eq, ih, List.filter_filter]
      apply List.filter_congr
      intro t _
      by_cases h : T < t.readyAt
      · have h2 : T + 1 ≤ t.readyAt := h
        simp [h, h2, Nat.le_of_lt h]
      · have h2 : ¬ (T + 1 ≤ t.readyAt) := h
        simp [h, h2]

/-- Occurrences of an entity id among the results observed in T ticks:
one per registered task with that id whose worker finishes before tick T. -/
theorem run_snd_count (reg : List RegTask) (T : Nat) (i : Nat) :
    countYield i (run_registry reg T).2
      = reg.countP (fun t => t.id == i && decide (t.readyAt < T)) := by
  induction T with
  | zero =>
      rw [run_registry]
      simp only [countYield, List.countP_nil]
      symm
      rw [List.countP_eq_zero]
      intro a _
      simp
  | succ T ih =>
      have ih2 := ih
      simp only [countYield] at ih2 ⊢
      rw [run_registry]
      simp only
      rw [List.countP_append, ih2]
      rw [drain_snd_eq, run_fst_eq, List.countP_map, List.filter_filter,
        List.countP_filter]
      have norm : List.countP (fun t => ((fun y => y.1 == i) ∘ yieldOf) t &&
            (decide (t.readyAt ≤ T) && decide (T ≤ t.readyAt))) reg
          = List.countP (fun t => t.id == i && decide (t.readyAt = T)) reg := by
        apply List.countP_congr
        intro t _
        simp only [Function.comp, yieldOf]
        constructor
        · intro hh
          simp only [Bool.and_eq_true, decide_eq_true_eq] at hh ⊢
          exact ⟨hh.1, by omega⟩
        · intro hh
          simp only [Bool.and_eq_true, decide_eq_true_eq] at hh ⊢
          exact ⟨hh.1, by omega, by omega⟩
      rw [norm]
      have step : ∀ (l : List RegTask),
          l.countP (fun t => t.id == i && decide (t.readyAt < T)) +
            l.countP (fun t => t.id == i && decide (t.readyAt = T)) =
            l.countP (fun t => t.id == i && decide (t.readyAt < T + 1)) := by
        intro l
        induction l with
        | nil => rfl
        | cons a l ihl =>
            simp only [List.countP_cons]
            by_cases hid : (a.id == i) = true <;>
              by_cases h1 : a.readyAt < T <;> by_cases h2 : a.readyAt = T <;>
              by_cases h3 : a.readyAt < T + 1 <;>
              simp [hid, h1, h2, h3] <;> omega
      exact step reg


/-- With pairwise distinct ids, the count collapses to one when the task
completes inside the run and zero otherwise. -/
theorem countP_unique_id (t : RegTask) (T : Nat) :
    ∀ (l : List RegTask), t ∈ l → List.Pairwise (fun a b => a.id ≠ b.id) l →
      l.countP (fun u => u.id == t.id && decide (u.readyAt < T))
        = if t.readyAt < T then 1 else 0 := by
  intro l
  induction l with
  | nil => intro hmem; cases hmem
  | cons a l ih =>
      intro hmem hp
      rw [List.pairwise_cons] at hp
      rw [List.countP_cons]
      rcases List.mem_cons.1 hmem with rfl | hmem2
      · have h0 : l.countP (fun u => u.id == t.id && decide (u.readyAt < T)) = 0 := by
          rw [List.countP_eq_zero]
          intro u hu
          have hne : t.id ≠ u.id := hp.1 u hu
          simp [Ne.symm hne]
        rw [h0]
        by_cases hT : t.readyAt < T <;> simp [hT]
      · have hne : a.id ≠ t.id := hp.1 t hmem2
        have hfalse : (a.id == t.id && decide (a.readyAt < T)) = false := by
          simp [hne]
        rw [hfalse]
        simpa using ih hmem2 hp.2

/-- Claim C5: for every registry of enqueued tasks with pairwise distinct
entity ids and every horizon of ticks, the once-per-tick drain observes each
result exactly once over the run: a task whose worker finishes before the
horizon is yielded exactly once and never observed again, and a task not yet
complete is still registered, unchanged, at the end. -/
theorem claim_C5 (reg : List RegTask) (T : Nat)
    (h : List.Pairwise (fun a b => a.id ≠ b.id) reg) :
    (run_registry reg T).1 = reg.filter (fun t => decide (T ≤ t.readyAt)) ∧
    ∀ t ∈ reg, countYield t.id (run_registry reg T).2
      = if t.readyAt < T then 1 else 0 := by
  refine ⟨run_fst_eq reg T, ?_⟩
  intro t ht
  rw [run_snd_count]
  exact countP_unique_id t T reg ht h

/-- Claim C5, witness: on the concrete three-task registry wreg, whose
subscribe task finishes at tick zero, three drained ticks observe that task
exactly once. -/
theorem claim_C5_witness :
    countYield wtask.id (run_registry wreg 3).2
      = if wtask.readyAt < 3 then 1 else 0 :=
  (claim_C5 wreg 3 (by decide)).2 wtask (by decide)

end BevyPN
